import Mathlib

/-!
Shallow embedding of the Flexiv Omni-Teleop example programs found in the
repository history snapshots (basic_free_space_motion_teleop, basic_teleop,
basic_cart_teleop), together with theorems checking the written
specification of the axis-lock command controller, the console task, the
periodic teleop tasks, the CLI argument handling and the setup phase.
-/

namespace OmniTeleop

/-- Reference frame of an axis-lock command. -/
inductive CoordType where
  | CD_WORLD
  | CD_TCP
deriving DecidableEq, Repr, Fintype

/-- Three per-axis lock booleans, the translation of a C++ array of three
bool values indexed 0, 1, 2. -/
structure LockList3 where
  axis0 : Bool
  axis1 : Bool
  axis2 : Bool
deriving DecidableEq, Repr, Fintype

/-- Axis lock command: reference frame plus translational and rotational
lock lists. The field set follows the data model of the specification,
since the TeleopDefs header declaring the struct is not among the provided
sources; the examples read and write exactly these three fields. -/
structure AxisLockDefs where
  coord : CoordType
  trans_axis_lock_list_ : LockList3
  ori_axis_lock_list_ : LockList3
deriving DecidableEq, Repr, Fintype

/-- Initial axis-lock command: all locks false, WORLD frame. -/
def cmd0 : AxisLockDefs :=
  { coord := CoordType.CD_WORLD
    trans_axis_lock_list_ := ⟨false, false, false⟩
    ori_axis_lock_list_ := ⟨false, false, false⟩ }

/-- All three axes of one category unlocked. -/
def allFree : LockList3 := ⟨false, false, false⟩

/-- Number of unlocked (false) entries in one lock list. -/
def freeCount3 (l : LockList3) : Nat :=
  (if l.axis0 then 0 else 1) + (if l.axis1 then 0 else 1) + (if l.axis2 then 0 else 1)

/-- Number of unlocked axes over all six axes of a command. -/
def unlockedCount (s : AxisLockDefs) : Nat :=
  freeCount3 s.trans_axis_lock_list_ + freeCount3 s.ori_axis_lock_list_

/-- Translation of testAixsLock from basic_free_space_motion_teleop. The
elapsed time, in whole seconds as produced by the duration cast of the
source, selects one branch of the if ladder; each branch overwrites the
frame and both lock lists of the incoming command and pushes it via
setLocalAxisLockCmd. The returned value is the pushed command. -/
def testAixsLock (elapsedTimeSec : Int) (AxisCmd : AxisLockDefs) : AxisLockDefs :=
  if elapsedTimeSec ≤ 5 then
    { AxisCmd with coord := CoordType.CD_TCP,
                   ori_axis_lock_list_ := ⟨true, true, true⟩,
                   trans_axis_lock_list_ := ⟨false, true, true⟩ }
  else if 5 < elapsedTimeSec ∧ elapsedTimeSec ≤ 10 then
    { AxisCmd with coord := CoordType.CD_TCP,
                   ori_axis_lock_list_ := ⟨true, true, true⟩,
                   trans_axis_lock_list_ := ⟨true, false, true⟩ }
  else if 10 < elapsedTimeSec ∧ elapsedTimeSec ≤ 15 then
    { AxisCmd with coord := CoordType.CD_TCP,
                   ori_axis_lock_list_ := ⟨true, true, true⟩,
                   trans_axis_lock_list_ := ⟨true, true, false⟩ }
  else if 15 < elapsedTimeSec ∧ elapsedTimeSec ≤ 20 then
    { AxisCmd with coord := CoordType.CD_TCP,
                   ori_axis_lock_list_ := ⟨false, true, true⟩,
                   trans_axis_lock_list_ := ⟨true, true, true⟩ }
  else if 20 < elapsedTimeSec ∧ elapsedTimeSec ≤ 25 then
    { AxisCmd with coord := CoordType.CD_TCP,
                   ori_axis_lock_list_ := ⟨true, false, true⟩,
                   trans_axis_lock_list_ := ⟨true, true, true⟩ }
  else if 25 < elapsedTimeSec ∧ elapsedTimeSec ≤ 30 then
    { AxisCmd with coord := CoordType.CD_TCP,
                   ori_axis_lock_list_ := ⟨true, true, false⟩,
                   trans_axis_lock_list_ := ⟨true, true, true⟩ }
  else if 30 < elapsedTimeSec ∧ elapsedTimeSec ≤ 35 then
    { AxisCmd with coord := CoordType.CD_TCP,
                   ori_axis_lock_list_ := ⟨false, false, false⟩,
                   trans_axis_lock_list_ := ⟨false, false, false⟩ }
  else if 35 < elapsedTimeSec ∧ elapsedTimeSec ≤ 40 then
    { AxisCmd with coord := CoordType.CD_WORLD,
                   ori_axis_lock_list_ := ⟨true, true, true⟩,
                   trans_axis_lock_list_ := ⟨false, true, true⟩ }
  else if 40 < elapsedTimeSec ∧ elapsedTimeSec ≤ 45 then
    { AxisCmd with coord := CoordType.CD_WORLD,
                   ori_axis_lock_list_ := ⟨true, true, true⟩,
                   trans_axis_lock_list_ := ⟨true, false, true⟩ }
  else if 45 < elapsedTimeSec ∧ elapsedTimeSec ≤ 50 then
    { AxisCmd with coord := CoordType.CD_WORLD,
                   ori_axis_lock_list_ := ⟨true, true, true⟩,
                   trans_axis_lock_list_ := ⟨true, true, false⟩ }
  else if 50 < elapsedTimeSec ∧ elapsedTimeSec ≤ 55 then
    { AxisCmd with coord := CoordType.CD_WORLD,
                   ori_axis_lock_list_ := ⟨false, true, true⟩,
                   trans_axis_lock_list_ := ⟨true, true, true⟩ }
  else if 55 < elapsedTimeSec ∧ elapsedTimeSec ≤ 60 then
    { AxisCmd with coord := CoordType.CD_WORLD,
                   ori_axis_lock_list_ := ⟨true, false, true⟩,
                   trans_axis_lock_list_ := ⟨true, true, true⟩ }
  else if 60 < elapsedTimeSec ∧ elapsedTimeSec ≤ 65 then
    { AxisCmd with coord := CoordType.CD_WORLD,
                   ori_axis_lock_list_ := ⟨true, true, false⟩,
                   trans_axis_lock_list_ := ⟨true, true, true⟩ }
  else
    { AxisCmd with coord := CoordType.CD_WORLD,
                   ori_axis_lock_list_ := ⟨false, false, false⟩,
                   trans_axis_lock_list_ := ⟨false, false, false⟩ }

/-- Transcription of the per-window patterns of the schedule table in the
specification, for comparison with the code: windows 0 to 12 are the
successive 5-second windows, 13 is the final all-free WORLD state. -/
def schedulePattern : Nat → AxisLockDefs
  | 0 => ⟨CoordType.CD_TCP, ⟨false, true, true⟩, ⟨true, true, true⟩⟩
  | 1 => ⟨CoordType.CD_TCP, ⟨true, false, true⟩, ⟨true, true, true⟩⟩
  | 2 => ⟨CoordType.CD_TCP, ⟨true, true, false⟩, ⟨true, true, true⟩⟩
  | 3 => ⟨CoordType.CD_TCP, ⟨true, true, true⟩, ⟨false, true, true⟩⟩
  | 4 => ⟨CoordType.CD_TCP, ⟨true, true, true⟩, ⟨true, false, true⟩⟩
  | 5 => ⟨CoordType.CD_TCP, ⟨true, true, true⟩, ⟨true, true, false⟩⟩
  | 6 => ⟨CoordType.CD_TCP, ⟨false, false, false⟩, ⟨false, false, false⟩⟩
  | 7 => ⟨CoordType.CD_WORLD, ⟨false, true, true⟩, ⟨true, true, true⟩⟩
  | 8 => ⟨CoordType.CD_WORLD, ⟨true, false, true⟩, ⟨true, true, true⟩⟩
  | 9 => ⟨CoordType.CD_WORLD, ⟨true, true, false⟩, ⟨true, true, true⟩⟩
  | 10 => ⟨CoordType.CD_WORLD, ⟨true, true, true⟩, ⟨false, true, true⟩⟩
  | 11 => ⟨CoordType.CD_WORLD, ⟨true, true, true⟩, ⟨true, false, true⟩⟩
  | 12 => ⟨CoordType.CD_WORLD, ⟨true, true, true⟩, ⟨true, true, false⟩⟩
  | _ => ⟨CoordType.CD_WORLD, ⟨false, false, false⟩, ⟨false, false, false⟩⟩

/-- Result of one console key dispatch: a toggle was applied, the help menu
was printed, or the key was rejected as an invalid command. -/
inductive ConsoleResp where
  | toggled
  | help
  | invalid
deriving DecidableEq, Repr

/-- The six WORLD-frame toggle keys of the console menu. -/
def worldKeys : List Char := ['x', 'y', 'z', 'q', 'w', 'e']

/-- The six TCP-frame toggle keys of the console menu. -/
def tcpKeys : List Char := ['X', 'Y', 'Z', 'Q', 'W', 'E']

/-- Translation of the switch statement of periodicConsoleTask in
basic_teleop: the first character of the input line selects a case; each
toggle case negates one lock boolean and assigns the frame of the key, the
help case and the default case leave the command unchanged. -/
def consoleKeySwitch (key : Char) (cmd : AxisLockDefs) : AxisLockDefs × ConsoleResp :=
  if key = 'm' then (cmd, ConsoleResp.help)
  else if key = 'x' then
    ({ cmd with
        trans_axis_lock_list_ :=
          { cmd.trans_axis_lock_list_ with axis0 := !cmd.trans_axis_lock_list_.axis0 },
        coord := CoordType.CD_WORLD }, ConsoleResp.toggled)
  else if key = 'y' then
    ({ cmd with
        trans_axis_lock_list_ :=
          { cmd.trans_axis_lock_list_ with axis1 := !cmd.trans_axis_lock_list_.axis1 },
        coord := CoordType.CD_WORLD }, ConsoleResp.toggled)
  else if key = 'z' then
    ({ cmd with
        trans_axis_lock_list_ :=
          { cmd.trans_axis_lock_list_ with axis2 := !cmd.trans_axis_lock_list_.axis2 },
        coord := CoordType.CD_WORLD }, ConsoleResp.toggled)
  else if key = 'q' then
    ({ cmd with
        ori_axis_lock_list_ :=
          { cmd.ori_axis_lock_list_ with axis0 := !cmd.ori_axis_lock_list_.axis0 },
        coord := CoordType.CD_WORLD }, ConsoleResp.toggled)
  else if key = 'w' then
    ({ cmd with
        ori_axis_lock_list_ :=
          { cmd.ori_axis_lock_list_ with axis1 := !cmd.ori_axis_lock_list_.axis1 },
        coord := CoordType.CD_WORLD }, ConsoleResp.toggled)
  else if key = 'e' then
    ({ cmd with
        ori_axis_lock_list_ :=
          { cmd.ori_axis_lock_list_ with axis2 := !cmd.ori_axis_lock_list_.axis2 },
        coord := CoordType.CD_WORLD }, ConsoleResp.toggled)
  else if key = 'X' then
    ({ cmd with
        trans_axis_lock_list_ :=
          { cmd.trans_axis_lock_list_ with axis0 := !cmd.trans_axis_lock_list_.axis0 },
        coord := CoordType.CD_TCP }, ConsoleResp.toggled)
  else if key = 'Y' then
    ({ cmd with
        trans_axis_lock_list_ :=
          { cmd.trans_axis_lock_list_ with axis1 := !cmd.trans_axis_lock_list_.axis1 },
        coord := CoordType.CD_TCP }, ConsoleResp.toggled)
  else if key = 'Z' then
    ({ cmd with
        trans_axis_lock_list_ :=
          { cmd.trans_axis_lock_list_ with axis2 := !cmd.trans_axis_lock_list_.axis2 },
        coord := CoordType.CD_TCP }, ConsoleResp.toggled)
  else if key = 'Q' then
    ({ cmd with
        ori_axis_lock_list_ :=
          { cmd.ori_axis_lock_list_ with axis0 := !cmd.ori_axis_lock_list_.axis0 },
        coord := CoordType.CD_TCP }, ConsoleResp.toggled)
  else if key = 'W' then
    ({ cmd with
        ori_axis_lock_list_ :=
          { cmd.ori_axis_lock_list_ with axis1 := !cmd.ori_axis_lock_list_.axis1 },
        coord := CoordType.CD_TCP }, ConsoleResp.toggled)
  else if key = 'E' then
    ({ cmd with
        ori_axis_lock_list_ :=
          { cmd.ori_axis_lock_list_ with axis2 := !cmd.ori_axis_lock_list_.axis2 },
        coord := CoordType.CD_TCP }, ConsoleResp.toggled)
  else (cmd, ConsoleResp.invalid)

/-- Number of positions (over the six lock booleans) where two commands
differ. -/
def lockDiffCount (a b : AxisLockDefs) : Nat :=
  (if a.trans_axis_lock_list_.axis0 = b.trans_axis_lock_list_.axis0 then 0 else 1)
  + (if a.trans_axis_lock_list_.axis1 = b.trans_axis_lock_list_.axis1 then 0 else 1)
  + (if a.trans_axis_lock_list_.axis2 = b.trans_axis_lock_list_.axis2 then 0 else 1)
  + (if a.ori_axis_lock_list_.axis0 = b.ori_axis_lock_list_.axis0 then 0 else 1)
  + (if a.ori_axis_lock_list_.axis1 = b.ori_axis_lock_list_.axis1 then 0 else 1)
  + (if a.ori_axis_lock_list_.axis2 = b.ori_axis_lock_list_.axis2 then 0 else 1)

/-- Observable actions of the console task. -/
inductive ConsoleEvent where
  | helpPrinted
  | invalidWarned
  | pushCmd (c : AxisLockDefs)
deriving DecidableEq, Repr

/-- Whether an event is a setLocalAxisLockCmd call. -/
def isPushEvent : ConsoleEvent → Bool
  | ConsoleEvent.pushCmd _ => true
  | _ => false

/-- One iteration of the console loop body of basic_teleop: dispatch the
key through the switch, emit the help or warn log of that case, then the
unconditional setLocalAxisLockCmd push that follows the switch. -/
def consoleIteration (cmd : AxisLockDefs) (key : Char) : AxisLockDefs × List ConsoleEvent :=
  match consoleKeySwitch key cmd with
  | (cmd2, ConsoleResp.toggled) => (cmd2, [ConsoleEvent.pushCmd cmd2])
  | (cmd2, ConsoleResp.help) => (cmd2, [ConsoleEvent.helpPrinted, ConsoleEvent.pushCmd cmd2])
  | (cmd2, ConsoleResp.invalid) => (cmd2, [ConsoleEvent.invalidWarned, ConsoleEvent.pushCmd cmd2])

/-- The console loop of periodicConsoleTask over a list of input lines
(their first characters), in a run where the shared stop flag is never set:
every line is processed in order. -/
def periodicConsoleTask (cmd : AxisLockDefs) : List Char → List ConsoleEvent
  | [] => []
  | k :: rest =>
      let r := consoleIteration cmd k
      r.2 ++ periodicConsoleTask r.1 rest

/-- Identifier of a bound teleop session: the dual-arm example binds a left
and a right session; the single-arm examples bind one session, labelled
left here. -/
inductive SessionId where
  | left
  | right
deriving DecidableEq, Repr

/-- Observable calls of a control tick. -/
inductive TeleopEvent where
  | isOperationalCall (s : SessionId) (result : Bool)
  | runCall (s : SessionId)
  | stopFlagSet
deriving DecidableEq, Repr

/-- Environment of one dual-arm control tick: the operational flags the two
sessions would report, and whether the run call of the left session
succeeds. -/
structure DualTickInput where
  leftOperational : Bool
  rightOperational : Bool
  leftRunOk : Bool
deriving DecidableEq, Repr

/-- Translation of periodicTeleopTask from basic_cart_teleop. The fault
condition of the source reads teleop1 twice and never teleop2,
short-circuiting after the first read when it is already false, and the
body runs only teleop1; the catch handler sets the shared stop flag. The
result is the ordered trace of observable calls of one tick. -/
def periodicTeleopTaskDual (inp : DualTickInput) : List TeleopEvent :=
  if !inp.leftOperational then
    [TeleopEvent.isOperationalCall SessionId.left inp.leftOperational,
     TeleopEvent.stopFlagSet]
  else if !inp.leftOperational then
    [TeleopEvent.isOperationalCall SessionId.left inp.leftOperational,
     TeleopEvent.isOperationalCall SessionId.left inp.leftOperational,
     TeleopEvent.stopFlagSet]
  else if inp.leftRunOk then
    [TeleopEvent.isOperationalCall SessionId.left true,
     TeleopEvent.isOperationalCall SessionId.left true,
     TeleopEvent.runCall SessionId.left]
  else
    [TeleopEvent.isOperationalCall SessionId.left true,
     TeleopEvent.isOperationalCall SessionId.left true,
     TeleopEvent.runCall SessionId.left,
     TeleopEvent.stopFlagSet]

/-- Environment of one single-arm control tick. -/
structure TickInput where
  operational : Bool
  runOk : Bool
deriving DecidableEq, Repr

/-- Translation of periodicTeleopTask from basic_teleop: poll isOperational
on the one bound session, throw on fault, otherwise run; the catch handler
sets the stop flag. Returns the event trace of the tick and whether the
tick set the stop flag. -/
def periodicTeleopTaskSingle (t : TickInput) : List TeleopEvent × Bool :=
  if !t.operational then
    ([TeleopEvent.isOperationalCall SessionId.left t.operational,
      TeleopEvent.stopFlagSet], true)
  else if t.runOk then
    ([TeleopEvent.isOperationalCall SessionId.left true,
      TeleopEvent.runCall SessionId.left], false)
  else
    ([TeleopEvent.isOperationalCall SessionId.left true,
      TeleopEvent.runCall SessionId.left,
      TeleopEvent.stopFlagSet], true)

/-- Modelled from the spec: the SDK Scheduler (Scheduler.hpp, not among the
provided sources) dispatches the high-priority control task once per tick
and the stop condition is observed before each dispatch; once the shared
stop flag is set, no further dispatch occurs and Start returns. The control
task body is the translation from basic_teleop. -/
def schedulerRunLoop : List TickInput → Bool → List TeleopEvent
  | [], _ => []
  | t :: ts, stop =>
      if stop then []
      else
        let r := periodicTeleopTaskSingle t
        r.1 ++ schedulerRunLoop ts (stop || r.2)

/-- One result of the getopt loop of the single-arm examples: a recognized
option with its argument value, or anything else, which the default case of
the switch turns into usage-and-exit. -/
inductive OptResult where
  | optL (v : String)
  | optR (v : String)
  | optC (v : String)
  | optOther
deriving DecidableEq, Repr

/-- Outcome of the argument handling in main: print the usage message and
exit with the given status, or proceed with the collected values. -/
inductive CliOutcome where
  | usageExit (code : Nat)
  | proceed (localSN remoteSN licCfgPath : String)
deriving DecidableEq, Repr

/-- The getopt switch loop of basic_teleop main: each recognized option
stores its argument; any other result makes main print usage and return 1,
reported here as none. -/
def parseArgsLoop : List OptResult → String → String → String →
    Option (String × String × String)
  | [], l, r, c => some (l, r, c)
  | OptResult.optL v :: rest, _, r, c => parseArgsLoop rest v r c
  | OptResult.optR v :: rest, l, _, c => parseArgsLoop rest l v c
  | OptResult.optC v :: rest, l, r, _ => parseArgsLoop rest l r v
  | OptResult.optOther :: _, _, _, _ => none

/-- Argument handling of basic_teleop main: run the getopt loop starting
from empty strings, then print usage and return 1 if any of the three
required values is still empty. -/
def mainArgsSingle (opts : List OptResult) : CliOutcome :=
  match parseArgsLoop opts "" "" "" with
  | none => CliOutcome.usageExit 1
  | some (l, r, c) =>
      if l = "" ∨ r = "" ∨ c = "" then CliOutcome.usageExit 1
      else CliOutcome.proceed l r c

/-- One result of the getopt loop of the dual-arm example, following the
cases of its switch: lower case l and r set the left pair, upper case L and
R set the right pair. -/
inductive DualOptResult where
  | optLowerL (v : String)
  | optLowerR (v : String)
  | optUpperL (v : String)
  | optUpperR (v : String)
  | optC (v : String)
  | optOther
deriving DecidableEq, Repr

/-- Outcome of the argument handling of the dual-arm main. -/
inductive DualCliOutcome where
  | usageExit (code : Nat)
  | proceed (localL remoteL localR remoteR licCfgPath : String)
deriving DecidableEq, Repr

/-- The getopt switch loop of basic_cart_teleop main, accumulating the left
local and remote serial numbers, the right local and remote serial numbers
and the license path. -/
def parseArgsLoopDual : List DualOptResult → String → String → String → String → String →
    Option (String × String × String × String × String)
  | [], ll, rl, lr, rr, c => some (ll, rl, lr, rr, c)
  | DualOptResult.optLowerL v :: rest, _, rl, lr, rr, c => parseArgsLoopDual rest v rl lr rr c
  | DualOptResult.optLowerR v :: rest, ll, _, lr, rr, c => parseArgsLoopDual rest ll v lr rr c
  | DualOptResult.optUpperL v :: rest, ll, rl, _, rr, c => parseArgsLoopDual rest ll rl v rr c
  | DualOptResult.optUpperR v :: rest, ll, rl, lr, _, c => parseArgsLoopDual rest ll rl lr v c
  | DualOptResult.optC v :: rest, ll, rl, lr, rr, _ => parseArgsLoopDual rest ll rl lr rr v
  | DualOptResult.optOther :: _, _, _, _, _, _ => none

/-- Argument handling of basic_cart_teleop main: the loop from empty
strings, then the five-way empty check of the source. -/
def mainArgsDual (opts : List DualOptResult) : DualCliOutcome :=
  match parseArgsLoopDual opts "" "" "" "" "" with
  | none => DualCliOutcome.usageExit 1
  | some (ll, rl, lr, rr, c) =>
      if ll = "" ∨ rl = "" ∨ lr = "" ∨ rr = "" ∨ c = "" then DualCliOutcome.usageExit 1
      else DualCliOutcome.proceed ll rl lr rr c

/-- Setup-phase operations of basic_teleop main in execution order, each of
which may throw. -/
inductive SetupStep where
  | construct
  | enable
  | teleopInit
  | setLocalNullSpacePosture
  | setRemoteNullSpacePosture
  | setRemoteMaxWrench
deriving DecidableEq, Repr

/-- Exit produced by the catch handler of main: a logged error message and
the process exit status. -/
structure ProgramExit where
  loggedError : Bool
  code : Nat
deriving DecidableEq, Repr

/-- The setup steps in the order main performs them. -/
def setupSequence : List SetupStep :=
  [SetupStep.construct, SetupStep.enable, SetupStep.teleopInit,
   SetupStep.setLocalNullSpacePosture, SetupStep.setRemoteNullSpacePosture,
   SetupStep.setRemoteMaxWrench]

/-- The try block of main over the setup phase: the steps run in order; the
first one that throws is caught by the handler, which logs the message and
returns 1. A completed list hands control onward. -/
def runSetupSteps (throwsAt : SetupStep → Bool) : List SetupStep → Except ProgramExit Unit
  | [] => Except.ok ()
  | s :: rest =>
      if throwsAt s then Except.error { loggedError := true, code := 1 }
      else runSetupSteps throwsAt rest

/-- The whole setup phase of basic_teleop main. -/
def mainSetup (throwsAt : SetupStep → Bool) : Except ProgramExit Unit :=
  runSetupSteps throwsAt setupSequence

/-- Helper: beyond the 65 s mark every branch condition of the ladder
fails and the final all-free WORLD state is pushed. -/
theorem testAixsLock_tail (e : Int) (c : AxisLockDefs) (h : 65 < e) :
    testAixsLock e c = schedulePattern 13 := by
  unfold testAixsLock
  rw [if_neg (by omega : ¬(e ≤ 5)), if_neg (by omega : ¬(5 < e ∧ e ≤ 10)),
    if_neg (by omega : ¬(10 < e ∧ e ≤ 15)), if_neg (by omega : ¬(15 < e ∧ e ≤ 20)),
    if_neg (by omega : ¬(20 < e ∧ e ≤ 25)), if_neg (by omega : ¬(25 < e ∧ e ≤ 30)),
    if_neg (by omega : ¬(30 < e ∧ e ≤ 35)), if_neg (by omega : ¬(35 < e ∧ e ≤ 40)),
    if_neg (by omega : ¬(40 < e ∧ e ≤ 45)), if_neg (by omega : ¬(45 < e ∧ e ≤ 50)),
    if_neg (by omega : ¬(50 < e ∧ e ≤ 55)), if_neg (by omega : ¬(55 < e ∧ e ≤ 60)),
    if_neg (by omega : ¬(60 < e ∧ e ≤ 65))]
  decide

/-- C1 counterexample: at elapsed 5 s the pushed state is not the pattern
of the second window (float translational Y in TCP), because the source
compares with a non-strict upper bound and so assigns the boundary to the
first window. -/
theorem c1_counterexample : testAixsLock 5 cmd0 ≠ schedulePattern 1 := by decide

/-- C1 (amended): boundary instants belong to the earlier window: for each
window index k below 13, at elapsed 5*(k+1) seconds the pushed state is the
pattern of window k (at 5 s the window-0 pattern, at 35 s the window-6
pattern, at 65 s the window-12 pattern), for any incoming command. -/
theorem c1_boundary_earlier_window (k : Fin 13) (c : AxisLockDefs) :
    testAixsLock (5 * ((k.val : Int) + 1)) c = schedulePattern k.val := by
  fin_cases k <;> rfl

/-- C2 counterexample: the claim requires exactly one unlocked axis for
every elapsed value in [0 s, 65 s), but 32 lies in that interval and the
pushed state at elapsed 32 s has all six axes unlocked. -/
theorem c2_counterexample :
    (0 ≤ (32 : Int) ∧ (32 : Int) < 65) ∧ unlockedCount (testAixsLock 32 cmd0) ≠ 1 := by
  decide

/-- C2 (amended): for elapsed in [0 s, 65 s] outside the all-free window
(30 s, 35 s], the pushed state has exactly one unlocked axis; inside
(30 s, 35 s] it is TCP with all six axes unlocked; for elapsed beyond 65 s
it is WORLD with all six axes unlocked; and for nonnegative elapsed the
frame is TCP up to 35 s and WORLD after. -/
theorem c2_schedule_shape (e : Int) (cmd : AxisLockDefs) :
    (0 ≤ e → e ≤ 65 → ¬(30 < e ∧ e ≤ 35) → unlockedCount (testAixsLock e cmd) = 1)
    ∧ (30 < e → e ≤ 35 →
        testAixsLock e cmd = ⟨CoordType.CD_TCP, allFree, allFree⟩)
    ∧ (65 < e → testAixsLock e cmd = ⟨CoordType.CD_WORLD, allFree, allFree⟩)
    ∧ (0 ≤ e → e ≤ 35 → (testAixsLock e cmd).coord = CoordType.CD_TCP)
    ∧ (35 < e → (testAixsLock e cmd).coord = CoordType.CD_WORLD) := by
  have hind : testAixsLock e cmd = testAixsLock e cmd0 := rfl
  refine ⟨fun h1 h2 h3 => ?_, fun h1 h2 => ?_, fun h1 => ?_, fun h1 h2 => ?_, fun h1 => ?_⟩
  · rw [hind]
    interval_cases e <;> first | decide | (exfalso; omega)
  · rw [hind]
    interval_cases e <;> decide
  · rw [testAixsLock_tail e cmd h1]
    decide
  · rw [hind]
    interval_cases e <;> decide
  · by_cases h65 : e ≤ 65
    · rw [hind]
      interval_cases e <;> decide
    · rw [testAixsLock_tail e cmd (by omega)]
      decide

/-- C2 witness: the amended schedule shape evaluated at the literal inputs
of the specification (7 s, 32 s, 100 s, 0 s, 63 s). -/
theorem c2_schedule_shape_witness :
    unlockedCount (testAixsLock 7 cmd0) = 1
    ∧ testAixsLock 32 cmd0 = ⟨CoordType.CD_TCP, allFree, allFree⟩
    ∧ testAixsLock 100 cmd0 = ⟨CoordType.CD_WORLD, allFree, allFree⟩
    ∧ (testAixsLock 0 cmd0).coord = CoordType.CD_TCP
    ∧ (testAixsLock 63 cmd0).coord = CoordType.CD_WORLD :=
  ⟨(c2_schedule_shape 7 cmd0).1 (by decide) (by decide) (by decide),
   (c2_schedule_shape 32 cmd0).2.1 (by decide) (by decide),
   (c2_schedule_shape 100 cmd0).2.2.1 (by decide),
   (c2_schedule_shape 0 cmd0).2.2.2.1 (by decide) (by decide),
   (c2_schedule_shape 63 cmd0).2.2.2.2 (by decide)⟩

/-- C10: the state pushed by testAixsLock is a function of the elapsed time
alone: every branch overwrites the frame and all six lock booleans, so two
invocations with equal elapsed values push identical states regardless of
the contents of the incoming command object. -/
theorem c10_push_function_of_elapsed (e : Int) (c c2 : AxisLockDefs) :
    testAixsLock e c = testAixsLock e c2 := rfl

/-- Helper: a key that is none of the twelve toggle keys and not the help
key falls through to the default case, which warns and leaves the command
unchanged. -/
theorem consoleKeySwitch_notKey (k : Char) (cmd : AxisLockDefs)
    (hw : k ∉ worldKeys) (ht : k ∉ tcpKeys) (hm : k ≠ 'm') :
    consoleKeySwitch k cmd = (cmd, ConsoleResp.invalid) := by
  simp only [worldKeys, tcpKeys, List.mem_cons, List.not_mem_nil, or_false, not_or] at hw ht
  obtain ⟨hx, hy, hz, hq, hw2, he⟩ := hw
  obtain ⟨hX, hY, hZ, hQ, hW, hE⟩ := ht
  simp only [consoleKeySwitch, if_neg hm, if_neg hx, if_neg hy, if_neg hz, if_neg hq,
    if_neg hw2, if_neg he, if_neg hX, if_neg hY, if_neg hZ, if_neg hQ, if_neg hW, if_neg hE]

set_option maxRecDepth 4000 in
/-- C3: each of the twelve toggle keys flips exactly one lock boolean,
leaves the other five unchanged, and assigns the frame of the key
(lower case WORLD, upper case TCP); every key outside the console menu
leaves the command unchanged and is reported as an invalid command. -/
theorem c3_console_key_dispatch (k : Char) (cmd : AxisLockDefs) :
    (k ∈ worldKeys →
      lockDiffCount cmd (consoleKeySwitch k cmd).1 = 1
      ∧ (consoleKeySwitch k cmd).1.coord = CoordType.CD_WORLD)
    ∧ (k ∈ tcpKeys →
      lockDiffCount cmd (consoleKeySwitch k cmd).1 = 1
      ∧ (consoleKeySwitch k cmd).1.coord = CoordType.CD_TCP)
    ∧ (k ∉ worldKeys → k ∉ tcpKeys → k ≠ 'm' →
      (consoleKeySwitch k cmd).1 = cmd
      ∧ (consoleKeySwitch k cmd).2 = ConsoleResp.invalid) := by
  refine ⟨fun hk => ?_, fun hk => ?_, fun h1 h2 h3 => ?_⟩
  · simp only [worldKeys] at hk
    fin_cases hk <;> (revert cmd; decide)
  · simp only [tcpKeys] at hk
    fin_cases hk <;> (revert cmd; decide)
  · rw [consoleKeySwitch_notKey k cmd h1 h2 h3]
    exact ⟨rfl, rfl⟩

/-- C3 witness: the dispatch behavior at the keys x (WORLD toggle),
Q (TCP toggle) and a key outside the menu. -/
theorem c3_console_key_dispatch_witness :
    (lockDiffCount cmd0 (consoleKeySwitch 'x' cmd0).1 = 1
      ∧ (consoleKeySwitch 'x' cmd0).1.coord = CoordType.CD_WORLD)
    ∧ (lockDiffCount cmd0 (consoleKeySwitch 'Q' cmd0).1 = 1
      ∧ (consoleKeySwitch 'Q' cmd0).1.coord = CoordType.CD_TCP)
    ∧ ((consoleKeySwitch '?' cmd0).1 = cmd0
      ∧ (consoleKeySwitch '?' cmd0).2 = ConsoleResp.invalid) :=
  ⟨(c3_console_key_dispatch 'x' cmd0).1 (by decide),
   (c3_console_key_dispatch 'Q' cmd0).2.1 (by decide),
   (c3_console_key_dispatch '?' cmd0).2.2 (by decide) (by decide) (by decide)⟩

/-- C4 at the failing input: the dual-arm tick never polls the right
session (the source condition reads teleop1 twice); with the left session
operational and the right session faulted, the code still calls run on the
left session and does not set the stop flag. The single-arm task does
satisfy the per-tick fault rule for its one bound session: when it is
non-operational, run is not called and the stop flag is set. -/
theorem c4_right_session_not_polled :
    (∀ r, TeleopEvent.isOperationalCall SessionId.right r ∉
        periodicTeleopTaskDual ⟨true, false, true⟩)
    ∧ TeleopEvent.runCall SessionId.left ∈ periodicTeleopTaskDual ⟨true, false, true⟩
    ∧ TeleopEvent.stopFlagSet ∉ periodicTeleopTaskDual ⟨true, false, true⟩
    ∧ (∀ ro, TeleopEvent.runCall SessionId.left ∉ (periodicTeleopTaskSingle ⟨false, ro⟩).1
        ∧ (periodicTeleopTaskSingle ⟨false, ro⟩).2 = true) := by
  decide

/-- C5 at a fault-free dual-arm tick: only the left session is advanced;
no run call for the right session appears anywhere in the tick trace. -/
theorem c5_right_session_not_run :
    periodicTeleopTaskDual ⟨true, true, true⟩ =
      [TeleopEvent.isOperationalCall SessionId.left true,
       TeleopEvent.isOperationalCall SessionId.left true,
       TeleopEvent.runCall SessionId.left]
    ∧ TeleopEvent.runCall SessionId.right ∉ periodicTeleopTaskDual ⟨true, true, true⟩ := by
  decide

/-- Helper: once the stop flag is observed set, the scheduler loop
dispatches nothing. -/
theorem schedulerRunLoop_stopped (l : List TickInput) : schedulerRunLoop l true = [] := by
  cases l <;> simp [schedulerRunLoop]

/-- C6: when the run call of a dispatched tick throws, that tick ends with
the stop flag set and no later tick is dispatched: the loop observes the
stop condition before each dispatch, so no further run call occurs; and a
loop entered with the stop flag set dispatches nothing at all. -/
theorem c6_run_error_stops (bad : TickInput) (rest ticks : List TickInput)
    (hop : bad.operational = true) (hrun : bad.runOk = false) :
    schedulerRunLoop (bad :: rest) false =
      [TeleopEvent.isOperationalCall SessionId.left true,
       TeleopEvent.runCall SessionId.left,
       TeleopEvent.stopFlagSet]
    ∧ schedulerRunLoop ticks true = [] := by
  constructor
  · simp [schedulerRunLoop, periodicTeleopTaskSingle, hop, hrun, schedulerRunLoop_stopped]
  · exact schedulerRunLoop_stopped ticks

/-- C6 witness: a run error on the first tick, with a healthy tick queued
behind it that is nevertheless not dispatched. -/
theorem c6_run_error_stops_witness :
    schedulerRunLoop [⟨true, false⟩, ⟨true, true⟩] false =
      [TeleopEvent.isOperationalCall SessionId.left true,
       TeleopEvent.runCall SessionId.left,
       TeleopEvent.stopFlagSet]
    ∧ schedulerRunLoop [⟨true, true⟩] true = [] :=
  c6_run_error_stops ⟨true, false⟩ [⟨true, true⟩] [⟨true, true⟩] rfl rfl

/-- Helper: the getopt loop of the single-arm examples leaves an
accumulator unchanged when no option of its kind occurs in the input. -/
theorem parseArgsLoop_pres (opts : List OptResult) :
    ∀ (l r c l2 r2 c2 : String), parseArgsLoop opts l r c = some (l2, r2, c2) →
    ((∀ v, OptResult.optL v ∉ opts) → l2 = l)
    ∧ ((∀ v, OptResult.optR v ∉ opts) → r2 = r)
    ∧ ((∀ v, OptResult.optC v ∉ opts) → c2 = c) := by
  induction opts with
  | nil =>
      intro l r c l2 r2 c2 h
      simp only [parseArgsLoop, Option.some.injEq, Prod.mk.injEq] at h
      obtain ⟨h1, h2, h3⟩ := h
      exact ⟨fun _ => h1.symm, fun _ => h2.symm, fun _ => h3.symm⟩
  | cons a rest ih =>
      intro l r c l2 r2 c2 h
      cases a with
      | optL v =>
          simp only [parseArgsLoop] at h
          have h2 := ih v r c l2 r2 c2 h
          exact ⟨fun hno => absurd (List.mem_cons_self _ _) (hno v),
            fun hno => h2.2.1 fun v2 hm => hno v2 (List.mem_cons_of_mem _ hm),
            fun hno => h2.2.2 fun v2 hm => hno v2 (List.mem_cons_of_mem _ hm)⟩
      | optR v =>
          simp only [parseArgsLoop] at h
          have h2 := ih l v c l2 r2 c2 h
          exact ⟨fun hno => h2.1 fun v2 hm => hno v2 (List.mem_cons_of_mem _ hm),
            fun hno => absurd (List.mem_cons_self _ _) (hno v),
            fun hno => h2.2.2 fun v2 hm => hno v2 (List.mem_cons_of_mem _ hm)⟩
      | optC v =>
          simp only [parseArgsLoop] at h
          have h2 := ih l r v l2 r2 c2 h
          exact ⟨fun hno => h2.1 fun v2 hm => hno v2 (List.mem_cons_of_mem _ hm),
            fun hno => h2.2.1 fun v2 hm => hno v2 (List.mem_cons_of_mem _ hm),
            fun hno => absurd (List.mem_cons_self _ _) (hno v)⟩
      | optOther => simp [parseArgsLoop] at h

/-- Helper: the getopt loop of the dual-arm example leaves an accumulator
unchanged when no option of its kind occurs in the input. -/
theorem parseArgsLoopDual_pres (opts : List DualOptResult) :
    ∀ (ll rl lr rr c ll2 rl2 lr2 rr2 c2 : String),
    parseArgsLoopDual opts ll rl lr rr c = some (ll2, rl2, lr2, rr2, c2) →
    ((∀ v, DualOptResult.optLowerL v ∉ opts) → ll2 = ll)
    ∧ ((∀ v, DualOptResult.optLowerR v ∉ opts) → rl2 = rl)
    ∧ ((∀ v, DualOptResult.optUpperL v ∉ opts) → lr2 = lr)
    ∧ ((∀ v, DualOptResult.optUpperR v ∉ opts) → rr2 = rr)
    ∧ ((∀ v, DualOptResult.optC v ∉ opts) → c2 = c) := by
  induction opts with
  | nil =>
      intro ll rl lr rr c ll2 rl2 lr2 rr2 c2 h
      simp only [parseArgsLoopDual, Option.some.injEq, Prod.mk.injEq] at h
      obtain ⟨h1, h2, h3, h4, h5⟩ := h
      exact ⟨fun _ => h1.symm, fun _ => h2.symm, fun _ => h3.symm,
        fun _ => h4.symm, fun _ => h5.symm⟩
  | cons a rest ih =>
      intro ll rl lr rr c ll2 rl2 lr2 rr2 c2 h
      cases a with
      | optLowerL v =>
          simp only [parseArgsLoopDual] at h
          have h2 := ih v rl lr rr c ll2 rl2 lr2 rr2 c2 h
          exact ⟨fun hno => absurd (List.mem_cons_self _ _) (hno v),
            fun hno => h2.2.1 fun v2 hm => hno v2 (List.mem_cons_of_mem _ hm),
            fun hno => h2.2.2.1 fun v2 hm => hno v2 (List.mem_cons_of_mem _ hm),
            fun hno => h2.2.2.2.1 fun v2 hm => hno v2 (List.mem_cons_of_mem _ hm),
            fun hno => h2.2.2.2.2 fun v2 hm => hno v2 (List.mem_cons_of_mem _ hm)⟩
      | optLowerR v =>
          simp only [parseArgsLoopDual] at h
          have h2 := ih ll v lr rr c ll2 rl2 lr2 rr2 c2 h
          exact ⟨fun hno => h2.1 fun v2 hm => hno v2 (List.mem_cons_of_mem _ hm),
            fun hno => absurd (List.mem_cons_self _ _) (hno v),
            fun hno => h2.2.2.1 fun v2 hm => hno v2 (List.mem_cons_of_mem _ hm),
            fun hno => h2.2.2.2.1 fun v2 hm => hno v2 (List.mem_cons_of_mem _ hm),
            fun hno => h2.2.2.2.2 fun v2 hm => hno v2 (List.mem_cons_of_mem _ hm)⟩
      | optUpperL v =>
          simp only [parseArgsLoopDual] at h
          have h2 := ih ll rl v rr c ll2 rl2 lr2 rr2 c2 h
          exact ⟨fun hno => h2.1 fun v2 hm => hno v2 (List.mem_cons_of_mem _ hm),
            fun hno => h2.2.1 fun v2 hm => hno v2 (List.mem_cons_of_mem _ hm),
            fun hno => absurd (List.mem_cons_self _ _) (hno v),
            fun hno => h2.2.2.2.1 fun v2 hm => hno v2 (List.mem_cons_of_mem _ hm),
            fun hno => h2.2.2.2.2 fun v2 hm => hno v2 (List.mem_cons_of_mem _ hm)⟩
      | optUpperR v =>
          simp only [parseArgsLoopDual] at h
          have h2 := ih ll rl lr v c ll2 rl2 lr2 rr2 c2 h
          exact ⟨fun hno => h2.1 fun v2 hm => hno v2 (List.mem_cons_of_mem _ hm),
            fun hno => h2.2.1 fun v2 hm => hno v2 (List.mem_cons_of_mem _ hm),
            fun hno => h2.2.2.1 fun v2 hm => hno v2 (List.mem_cons_of_mem _ hm),
            fun hno => absurd (List.mem_cons_self _ _) (hno v),
            fun hno => h2.2.2.2.2 fun v2 hm => hno v2 (List.mem_cons_of_mem _ hm)⟩
      | optC v =>
          simp only [parseArgsLoopDual] at h
          have h2 := ih ll rl lr rr v ll2 rl2 lr2 rr2 c2 h
          exact ⟨fun hno => h2.1 fun v2 hm => hno v2 (List.mem_cons_of_mem _ hm),
            fun hno => h2.2.1 fun v2 hm => hno v2 (List.mem_cons_of_mem _ hm),
            fun hno => h2.2.2.1 fun v2 hm => hno v2 (List.mem_cons_of_mem _ hm),
            fun hno => h2.2.2.2.1 fun v2 hm => hno v2 (List.mem_cons_of_mem _ hm),
            fun hno => absurd (List.mem_cons_self _ _) (hno v)⟩
      | optOther => simp [parseArgsLoopDual] at h

/-- C7: if any required flag never appears among the getopt results, main
prints the usage message and exits with status 1; for the single-arm
examples this covers l, r and c, and for the dual-arm variant the second
local and remote pair as well. -/
theorem c7_missing_flag_usage_exit (opts : List OptResult) (dopts : List DualOptResult) :
    (((∀ v, OptResult.optL v ∉ opts) ∨ (∀ v, OptResult.optR v ∉ opts)
        ∨ (∀ v, OptResult.optC v ∉ opts)) →
      mainArgsSingle opts = CliOutcome.usageExit 1)
    ∧ (((∀ v, DualOptResult.optLowerL v ∉ dopts) ∨ (∀ v, DualOptResult.optLowerR v ∉ dopts)
        ∨ (∀ v, DualOptResult.optUpperL v ∉ dopts) ∨ (∀ v, DualOptResult.optUpperR v ∉ dopts)
        ∨ (∀ v, DualOptResult.optC v ∉ dopts)) →
      mainArgsDual dopts = DualCliOutcome.usageExit 1) := by
  constructor
  · intro hmiss
    unfold mainArgsSingle
    cases hp : parseArgsLoop opts "" "" "" with
    | none => rfl
    | some t =>
        obtain ⟨l2, r2, c2⟩ := t
        have hpres := parseArgsLoop_pres opts "" "" "" l2 r2 c2 hp
        rcases hmiss with hL | hR | hC
        · simp [hpres.1 hL]
        · simp [hpres.2.1 hR]
        · simp [hpres.2.2 hC]
  · intro hmiss
    unfold mainArgsDual
    cases hp : parseArgsLoopDual dopts "" "" "" "" "" with
    | none => rfl
    | some t =>
        obtain ⟨ll2, rl2, lr2, rr2, c2⟩ := t
        have hpres := parseArgsLoopDual_pres dopts "" "" "" "" "" ll2 rl2 lr2 rr2 c2 hp
        rcases hmiss with h1 | h2 | h3 | h4 | h5
        · simp [hpres.1 h1]
        · simp [hpres.2.1 h2]
        · simp [hpres.2.2.1 h3]
        · simp [hpres.2.2.2.1 h4]
        · simp [hpres.2.2.2.2 h5]

/-- C7 witness: a single-arm invocation missing the l flag and a dual-arm
invocation missing the right-hand pair both exit 1 with usage. -/
theorem c7_missing_flag_usage_exit_witness :
    mainArgsSingle [OptResult.optR "b", OptResult.optC "p"] = CliOutcome.usageExit 1
    ∧ mainArgsDual [DualOptResult.optLowerL "a", DualOptResult.optLowerR "b",
        DualOptResult.optC "p"] = DualCliOutcome.usageExit 1 :=
  ⟨(c7_missing_flag_usage_exit [OptResult.optR "b", OptResult.optC "p"]
      [DualOptResult.optLowerL "a", DualOptResult.optLowerR "b", DualOptResult.optC "p"]).1
      (Or.inl (by intro v h; simp at h)),
   (c7_missing_flag_usage_exit [OptResult.optR "b", OptResult.optC "p"]
      [DualOptResult.optLowerL "a", DualOptResult.optLowerR "b", DualOptResult.optC "p"]).2
      (Or.inr (Or.inr (Or.inl (by intro v h; simp at h))))⟩

/-- Helper: if some step of the list throws, the setup run ends in the
caught error with a logged message and exit status 1. -/
theorem runSetupSteps_mem_throw (l : List SetupStep) (f : SetupStep → Bool) (s : SetupStep) :
    s ∈ l → f s = true → runSetupSteps f l = Except.error { loggedError := true, code := 1 } := by
  induction l with
  | nil => intro h _; cases h
  | cons a rest ih =>
      intro hmem hf
      by_cases ha : f a = true
      · simp [runSetupSteps, ha]
      · rcases List.mem_cons.mp hmem with h | h
        · exact absurd (h ▸ hf) ha
        · simpa [runSetupSteps, ha] using ih h hf

/-- C8: a throw from any setup-phase step (construction, enable, init,
the posture or wrench configuration) is caught by the handler of main,
which logs the message and exits with status 1; an unrecognized console key
only warns, pushes the unchanged command and the console loop keeps
processing the remaining lines. -/
theorem c8_setup_abort_console_survives (f : SetupStep → Bool) (s : SetupStep)
    (hs : s ∈ setupSequence) (hf : f s = true) (k : Char) (cmd : AxisLockDefs)
    (rest : List Char) (h1 : k ∉ worldKeys) (h2 : k ∉ tcpKeys) (h3 : k ≠ 'm') :
    mainSetup f = Except.error { loggedError := true, code := 1 }
    ∧ periodicConsoleTask cmd (k :: rest) =
        ConsoleEvent.invalidWarned :: ConsoleEvent.pushCmd cmd ::
          periodicConsoleTask cmd rest := by
  constructor
  · exact runSetupSteps_mem_throw setupSequence f s hs hf
  · simp [periodicConsoleTask, consoleIteration, consoleKeySwitch_notKey k cmd h1 h2 h3]

/-- C8 witness: a throw from enable aborts with exit 1, and an invalid key
line is warned about and processed without ending the loop. -/
theorem c8_setup_abort_console_survives_witness :
    mainSetup (fun s => s = SetupStep.enable) =
      Except.error { loggedError := true, code := 1 }
    ∧ periodicConsoleTask cmd0 ['?'] =
        ConsoleEvent.invalidWarned :: ConsoleEvent.pushCmd cmd0 ::
          periodicConsoleTask cmd0 [] :=
  c8_setup_abort_console_survives (fun s => s = SetupStep.enable) SetupStep.enable
    (by decide) (by decide) '?' cmd0 [] (by decide) (by decide) (by decide)

/-- C9: every console iteration, whatever the key (toggle, help or
unrecognized), emits exactly one setLocalAxisLockCmd call, and the pushed
value is the current command as left by the switch. -/
theorem c9_one_push_per_line (k : Char) (cmd : AxisLockDefs) :
    (consoleIteration cmd k).2.countP isPushEvent = 1
    ∧ ConsoleEvent.pushCmd (consoleIteration cmd k).1 ∈ (consoleIteration cmd k).2 := by
  rcases h : consoleKeySwitch k cmd with ⟨c2, r⟩
  cases r <;>
    simp [consoleIteration, h, isPushEvent, List.countP_cons, List.countP_nil]

end OmniTeleop
